import Mathlib

/-!
Verification of the RelyHome automation worker's core logic.

Shallow embedding of the session-expiry detector, the cookie session cache,
the slot scoring/selection engine (`findBestSlot`), the slot-label parser
(`parseSlotLabel`), the post-submission login classification, and the
`processJob` accept pipeline, translated from `src/server.js` and the
repository variants `src/unnamed/part_001`..`part_003`.

JavaScript strings are modelled as Lean `String`s (the repository only ever
feeds ASCII text to these functions); `String.prototype.includes` is substring
containment, `toLowerCase` is per-character ASCII lowering, and the concrete
regular expressions used by the source are implemented as explicit
leftmost-match backtracking matchers over `List Char`.
-/

namespace RelyhomeWorker

/-- JS `\s` whitespace test, restricted to the ASCII whitespace characters
that can occur in this system's inputs. -/
def isJsSpace (c : Char) : Bool :=
  c = ' ' || c = '\t' || c = '\n' || c = '\r' || c = '\x0b' || c = '\x0c'

/-- JS `String.prototype.toLowerCase` (ASCII). -/
def jsToLower (s : String) : String :=
  String.mk (s.toList.map Char.toLower)

/-- JS `String.prototype.trim`. -/
def jsTrim (s : String) : String :=
  String.mk (((s.toList.dropWhile isJsSpace).reverse.dropWhile isJsSpace).reverse)

/-- Predicate `charsStartWith hs ns`: true when `ns` is a leading segment of `hs`. -/
def charsStartWith : List Char → List Char → Bool
  | _, [] => true
  | [], _ :: _ => false
  | c :: cs, d :: ds => c = d && charsStartWith cs ds

/-- Predicate `charsContain hs ns`: true when `ns` occurs contiguously inside `hs`. -/
def charsContain : List Char → List Char → Bool
  | [], ns => charsStartWith [] ns
  | c :: cs, ns => charsStartWith (c :: cs) ns || charsContain cs ns

/-- JS `haystack.includes(needle)`: substring containment. -/
def jsIncludes (haystack needle : String) : Bool :=
  charsContain haystack.toList needle.toList

/-- Constant `RELYHOME_SESSION_EXPIRED_PATTERNS` (identical in all repository variants). -/
def RELYHOME_SESSION_EXPIRED_PATTERNS : List String :=
  ["login", "sign in", "session expired", "please log in", "authentication required"]

/-- Function `looksLikeRelyhomeSessionExpired` as defined in `src/server.js`:
lowercase the text, treat fewer than 100 characters as expired, otherwise
test the fixed trigger-phrase set. -/
def looksLikeRelyhomeSessionExpired (text : String) : Bool :=
  let t := jsToLower text
  if t.length < 100 then true
  else RELYHOME_SESSION_EXPIRED_PATTERNS.any (fun p => jsIncludes t p)

/-- Function `looksLikeRelyhomeSessionExpired` as defined in the repository variants
`src/unnamed/part_001`, `part_002` and `part_003`: lowercase **and trim** the
text, treat fewer than 40 characters as expired, otherwise test the same
trigger-phrase set. -/
def looksLikeRelyhomeSessionExpiredV2 (text : String) : Bool :=
  let t := jsTrim (jsToLower text)
  if t.length < 40 then true
  else RELYHOME_SESSION_EXPIRED_PATTERNS.any (fun p => jsIncludes t p)

/-! ## Cookie session cache

`relyhomeCookies : Array | null` and `relyhomeCookiesUpdatedAt : number`
form the process-wide mutable cache; `Date.now()` is passed explicitly as a
parameter.  Identical in every repository variant. -/

/-- One browser cookie record (only identity matters to the cache logic). -/
structure Cookie where
  name : String
  value : String
  deriving DecidableEq, Repr

/-- The module-level mutable state `relyhomeCookies` / `relyhomeCookiesUpdatedAt`.
`cookies = none` models the JS `null`. -/
structure CacheState where
  cookies : Option (List Cookie)
  updatedAt : Int
  deriving DecidableEq, Repr

/-- Constant `RELYHOME_COOKIE_TTL_MS = 1000 * 60 * 60 * 20` (20 hours). -/
def RELYHOME_COOKIE_TTL_MS : Int := 1000 * 60 * 60 * 20

/-- Function `hasFreshCookieCache()`: the cache is an array, non-empty, and
`Date.now() - relyhomeCookiesUpdatedAt < RELYHOME_COOKIE_TTL_MS`. -/
def hasFreshCookieCache (s : CacheState) (now : Int) : Bool :=
  match s.cookies with
  | none => false
  | some cs => decide (0 < cs.length) && decide (now - s.updatedAt < RELYHOME_COOKIE_TTL_MS)

/-- Function `saveRelyhomeCookieCache(page)`: read the page's cookies (`pageCookies`
is the outcome of `await page.cookies()`; a thrown error is `.error`); if the
read succeeded and the list is non-empty, replace the cache wholesale and
reset its clock to `now`; otherwise leave the state untouched (errors are
swallowed as non-fatal). -/
def saveRelyhomeCookieCache (s : CacheState) (pageCookies : Except String (List Cookie))
    (now : Int) : CacheState :=
  match pageCookies with
  | .error _ => s
  | .ok cs => if 0 < cs.length then { cookies := some cs, updatedAt := now } else s

/-- Function `applyRelyhomeCookieCache(page)`: no-op when the cache is not fresh;
otherwise attempt `page.setCookie(...)` (`setCookieThrows` says whether that
call throws) and, on a throw, clear the cache to `null` / `0`.  The catch
block swallows the exception, so the function always returns a state and
never propagates an error. -/
def applyRelyhomeCookieCache (s : CacheState) (now : Int) (setCookieThrows : Bool) :
    CacheState :=
  if hasFreshCookieCache s now then
    if setCookieThrows then { cookies := none, updatedAt := 0 } else s
  else s

/-! ## Slot discovery and scoring engine (`findBestSlot`)

Identical logic in `src/server.js:409-464` and the variants. -/

/-- One appointment slot as assembled by the page-evaluation scan:
radio `value`, derived `label`, element `id`, radio group `name`. -/
structure Slot where
  value : String
  label : String
  id : String
  name : String
  deriving DecidableEq, Repr

/-- Function `getDayFull(abbrev)`: expand a 3-letter weekday abbreviation to the full
weekday name; any other key falls through to itself. -/
def getDayFull (d : String) : String :=
  if d = "sun" then "sunday"
  else if d = "mon" then "monday"
  else if d = "tue" then "tuesday"
  else if d = "wed" then "wednesday"
  else if d = "thu" then "thursday"
  else if d = "fri" then "friday"
  else if d = "sat" then "saturday"
  else d

/-- One step of the global regex `/(\d{1,2}):?(\d{2})?\s*(am|pm)?/g` used by
`timeRangeMatches`: attempt a match anchored at the head of `l`.  Every
sub-pattern after the mandatory leading digits is optional and nothing
follows them, so pure greedy left-to-right consumption (no backtracking) is
exact.  Returns the matched characters and the remaining input.  Both inputs
of `timeRangeMatches` are already lowercased by the caller, so the `i` flag
reduces to matching literal `am` / `pm`. -/
def matchTimeTokenAt (l : List Char) : Option (List Char × List Char) :=
  let digits :=
    match l with
    | c :: d :: rest =>
      if c.isDigit then
        if d.isDigit then some ([c, d], rest) else some ([c], d :: rest)
      else none
    | [c] => if c.isDigit then some ([c], ([] : List Char)) else none
    | [] => none
  match digits with
  | none => none
  | some (ds, r1) =>
    let (colon, r2) := match r1 with
      | ':' :: t => ([':'], t)
      | _ => (([] : List Char), r1)
    let (mins, r3) := match r2 with
      | a :: b :: t => if a.isDigit && b.isDigit then ([a, b], t) else ([], r2)
      | _ => (([] : List Char), r2)
    let ws := r3.takeWhile isJsSpace
    let r4 := r3.dropWhile isJsSpace
    let (ampm, r5) := match r4 with
      | 'a' :: 'm' :: t => (['a', 'm'], t)
      | 'p' :: 'm' :: t => (['p', 'm'], t)
      | _ => (([] : List Char), r4)
    some (ds ++ colon ++ mins ++ ws ++ ampm, r5)

/-- The JS global-match scan `str.match(/.../g)`: slide over the input,
collecting each leftmost match and resuming after it.  `fuel` bounds the
recursion (callers pass the input length plus one, which always suffices
since every match consumes at least one character). -/
def jsMatchAllTimes : Nat → List Char → List (List Char)
  | 0, _ => []
  | _ + 1, [] => []
  | fuel + 1, c :: rest =>
    match matchTimeTokenAt (c :: rest) with
    | some (m, r) => m :: jsMatchAllTimes fuel r
    | none => jsMatchAllTimes fuel rest

/-- Function `timeRangeMatches(label, prefSlot)`: extract `H(:MM)? (am|pm)?` tokens
from both strings with the global time regex and test for a shared token
(literal string equality). -/
def timeRangeMatches (label prefSlot : String) : Bool :=
  let labelTimes := jsMatchAllTimes (label.toList.length + 1) label.toList
  let prefTimes := jsMatchAllTimes (prefSlot.toList.length + 1) prefSlot.toList
  if labelTimes.isEmpty || prefTimes.isEmpty then false
  else labelTimes.any (fun lt => prefTimes.any (fun pt => lt = pt))

/-- The day-match loop of `findBestSlot`: `for (day of normDays) { if
(label.includes(day) || label.includes(getDayFull(day))) { score += 100;
break; } }` adds 100 exactly once iff some normalized preferred day matches. -/
def dayMatches (labelLower : String) (normDays : List String) : Bool :=
  normDays.any (fun d => jsIncludes labelLower d || jsIncludes labelLower (getDayFull d))

/-- Day-score component: 100 on a (first) day match, 0 otherwise. -/
def dayScore (labelLower : String) (normDays : List String) : Int :=
  if dayMatches labelLower normDays then 100 else 0

/-- Index of the first normalized preferred time token matching the label,
mirroring the `for (let i = 0; ...) { if (includes || timeRangeMatches)
{ score += 50 - i * 5; break; } }` loop. -/
def slotTimeIdx (labelLower : String) : List String → Option Nat
  | [] => none
  | p :: ps =>
    if jsIncludes labelLower p || timeRangeMatches labelLower p then some 0
    else (slotTimeIdx labelLower ps).map (· + 1)

/-- Time-score component: `50 - i * 5` for the first matching index `i`,
0 when no preferred time token matches. -/
def timeScore (labelLower : String) (normSlots : List String) : Int :=
  match slotTimeIdx labelLower normSlots with
  | some i => 50 - 5 * (i : Int)
  | none => 0

/-- Total score assigned to a slot by `findBestSlot` (day bonus plus time
bonus, accumulated into the same counter). -/
def scoreSlot (slot : Slot) (normDays normSlots : List String) : Int :=
  dayScore (jsToLower slot.label) normDays + timeScore (jsToLower slot.label) normSlots

/-- Insertion step of a stable descending sort on scores: `x`, which comes
earlier in the original order, is placed before `y` exactly when
`x.score ≥ y.score`, so equal-score elements keep their original order. -/
def insertByScoreDesc (x : Slot × Int) : List (Slot × Int) → List (Slot × Int)
  | [] => [x]
  | y :: ys => if y.2 ≤ x.2 then x :: y :: ys else y :: insertByScoreDesc x ys

/-- Stable descending sort by score, modelling the ECMAScript (ES2019+)
stable `Array.prototype.sort` with comparator `(a, b) => b.score - a.score`. -/
def sortByScoreDesc : List (Slot × Int) → List (Slot × Int)
  | [] => []
  | x :: xs => insertByScoreDesc x (sortByScoreDesc xs)

/-- Function `findBestSlot(availableSlots, preferredDays, preferredSlots)`:
normalize the preference lists to lowercase, score every slot, stable-sort
descending by score and return the first element (`undefined`, i.e. `none`,
on an empty input). -/
def findBestSlot (availableSlots : List Slot) (preferredDays preferredSlots : List String) :
    Option Slot :=
  let normDays := preferredDays.map jsToLower
  let normSlots := preferredSlots.map jsToLower
  let scoredSlots := availableSlots.map (fun s => (s, scoreSlot s normDays normSlots))
  (sortByScoreDesc scoredSlots).head?.map Prod.fst

/-! ## Slot label parsing (`parseSlotLabel`)

`src/server.js:466-484`; identical in the variants.  Each of the three
regexes is realised as a leftmost-match scanner with the exact greedy /
backtracking behaviour of the ECMAScript pattern. -/

/-- Take exactly `n` leading decimal digits. -/
def takeNDigits : Nat → List Char → Option (List Char × List Char)
  | 0, l => some ([], l)
  | n + 1, c :: t =>
    if c.isDigit then (takeNDigits n t).map (fun p => (c :: p.1, p.2)) else none
  | _ + 1, [] => none

/-- First `some` in a list of alternatives (regex alternation order). -/
def firstSome {α : Type} : List (Option α) → Option α
  | [] => none
  | some a :: _ => some a
  | none :: rest => firstSome rest

/-- Anchored match of the first date alternative `\d{1,2}\/\d{1,2}\/\d{2,4}`,
with greedy-then-backtrack quantifiers (`[2,1]` and `[4,3,2]` digit counts). -/
def matchDateSlashAt (l : List Char) : Option (List Char) :=
  firstSome ([2, 1].map (fun n1 =>
    match takeNDigits n1 l with
    | none => none
    | some (d1, r1) =>
      match r1 with
      | '/' :: r2 =>
        firstSome ([2, 1].map (fun n2 =>
          match takeNDigits n2 r2 with
          | none => none
          | some (d2, r3) =>
            match r3 with
            | '/' :: r4 =>
              firstSome ([4, 3, 2].map (fun n3 =>
                (takeNDigits n3 r4).map (fun p => d1 ++ '/' :: d2 ++ '/' :: p.1)))
            | _ => none))
      | _ => none))

/-- Anchored match of the second date alternative `\d{4}-\d{2}-\d{2}`. -/
def matchDateIsoAt (l : List Char) : Option (List Char) :=
  match takeNDigits 4 l with
  | none => none
  | some (d1, r1) =>
    match r1 with
    | '-' :: r2 =>
      match takeNDigits 2 r2 with
      | none => none
      | some (d2, r3) =>
        match r3 with
        | '-' :: r4 => (takeNDigits 2 r4).map (fun p => d1 ++ '-' :: d2 ++ '-' :: p.1)
        | _ => none
    | _ => none

/-- Anchored match of `(\d{1,2}\/\d{1,2}\/\d{2,4}|\d{4}-\d{2}-\d{2})`:
try the alternatives in pattern order. -/
def matchDateAt (l : List Char) : Option (List Char) :=
  match matchDateSlashAt l with
  | some m => some m
  | none => matchDateIsoAt l

/-- Leftmost (non-global) match of the date regex over the whole input. -/
def firstMatchDate : List Char → Option (List Char)
  | [] => none
  | c :: t =>
    match matchDateAt (c :: t) with
    | some m => some m
    | none => firstMatchDate t

/-- The weekday alternation of `parseSlotLabel`, in pattern order. -/
def weekdayNames : List String :=
  ["monday", "tuesday", "wednesday", "thursday", "friday", "saturday", "sunday"]

/-- Anchored case-insensitive match of
`(monday|tuesday|wednesday|thursday|friday|saturday|sunday)/i`; the matched
text keeps its original case, as `String.prototype.match` reports it. -/
def matchDayAt (l : List Char) : Option (List Char) :=
  firstSome (weekdayNames.map (fun w =>
    let n := w.length
    let pre := l.take n
    if pre.length = n && pre.map Char.toLower = w.toList then some pre else none))

/-- Leftmost match of the weekday regex over the whole input. -/
def firstMatchDay : List Char → Option (List Char)
  | [] => none
  | c :: t =>
    match matchDayAt (c :: t) with
    | some m => some m
    | none => firstMatchDay t

/-! Anchored backtracking matcher for the time-range regex
`(\d{1,2}(?::\d{2})?\s*(?:am|pm)?\s*-\s*\d{1,2}(?::\d{2})?\s*(?:am|pm)?)/i`.
Each component is expanded to its possible consumptions in greedy order;
`List.findSome?` over the nested alternatives realises exact leftmost-greedy
backtracking. -/

/-- Alternatives of `\d{1,2}` (greedy: two digits before one). -/
def altDigits (l : List Char) : List (List Char × List Char) :=
  [2, 1].filterMap (fun n => takeNDigits n l)

/-- Alternatives of `(?::\d{2})?` (greedy: the full `:dd` group before skipping). -/
def altColonMins (l : List Char) : List (List Char × List Char) :=
  (match l with
   | ':' :: r =>
     match takeNDigits 2 r with
     | some (ds, r2) => [(':' :: ds, r2)]
     | none => []
   | _ => []) ++ [([], l)]

/-- Alternatives of `\s*` (greedy: the longest whitespace run down to none). -/
def altSpaces (l : List Char) : List (List Char × List Char) :=
  let k := (l.takeWhile isJsSpace).length
  (List.range (k + 1)).reverse.map (fun n => (l.take n, l.drop n))

/-- Alternatives of `(?:am|pm)?`, case-insensitive, preserving original case. -/
def altAmPm (l : List Char) : List (List Char × List Char) :=
  (match l with
   | c1 :: c2 :: r =>
     if c1.toLower = 'a' && c2.toLower = 'm' then [([c1, c2], r)] else []
   | _ => []) ++
  (match l with
   | c1 :: c2 :: r =>
     if c1.toLower = 'p' && c2.toLower = 'm' then [([c1, c2], r)] else []
   | _ => []) ++ [([], l)]

/-- Literal `-`. -/
def altDash (l : List Char) : List (List Char × List Char) :=
  match l with
  | '-' :: r => [(['-'], r)]
  | _ => []

/-- Anchored match of the whole time-range pattern at the head of `l`. -/
def matchTimeRangeAt (l : List Char) : Option (List Char) :=
  (altDigits l).findSome? fun p1 =>
  (altColonMins p1.2).findSome? fun p2 =>
  (altSpaces p2.2).findSome? fun p3 =>
  (altAmPm p3.2).findSome? fun p4 =>
  (altSpaces p4.2).findSome? fun p5 =>
  (altDash p5.2).findSome? fun p6 =>
  (altSpaces p6.2).findSome? fun p7 =>
  (altDigits p7.2).findSome? fun p8 =>
  (altColonMins p8.2).findSome? fun p9 =>
  (altSpaces p9.2).findSome? fun p10 =>
  (altAmPm p10.2).findSome? fun p11 =>
  some (p1.1 ++ p2.1 ++ p3.1 ++ p4.1 ++ p5.1 ++ p6.1 ++ p7.1 ++ p8.1 ++ p9.1 ++ p10.1 ++ p11.1)

/-- Leftmost match of the time-range regex over the whole input. -/
def firstMatchTimeRange : List Char → Option (List Char)
  | [] => none
  | c :: t =>
    match matchTimeRangeAt (c :: t) with
    | some m => some m
    | none => firstMatchTimeRange t

/-- The result record of `parseSlotLabel`: each field `null` when its regex
found no match. -/
structure ParsedSlotLabel where
  date : Option String
  day : Option String
  timeRange : Option String
  deriving DecidableEq, Repr

/-- Function `parseSlotLabel(label)`: extract the first date literal, the first full
weekday name, and the first `start - end` time-range expression. -/
def parseSlotLabel (label : String) : ParsedSlotLabel where
  date := (firstMatchDate label.toList).map String.mk
  day := (firstMatchDay label.toList).map String.mk
  timeRange := (firstMatchTimeRange label.toList).map String.mk

/-! ## Login state machine: post-submission classification

`loginToRelyHome` in `src/unnamed/part_001:190-243` and
`src/unnamed/part_002:180-233` (identical): after submitting the form the
function reads the final URL, the page body text, and whether a password
input is still present, then classifies the outcome.  A throw of
`Login failed: Invalid credentials` is `Failed(InvalidCredentials)`; a throw
of `Login appears to have failed - still on login page` is
`Failed(StillOnLoginPage)`; both `return` paths are `Succeeded`. -/

/-- Terminal outcome of the login state machine's classification step. -/
inductive LoginOutcome where
  | invalidCredentials
  | succeeded
  | stillOnLoginPage
  deriving DecidableEq, Repr

/-- List `errorMessages`: the explicit login-error phrase list. -/
def loginErrorMessages : List String :=
  ["invalid password", "invalid credentials", "incorrect password", "wrong password",
   "login failed", "authentication failed", "invalid username", "invalid email",
   "user not found", "account not found", "bad credentials"]

/-- Model of `successIndicators.some(Boolean)`: the disjunctive success-signal scan
over the final URL and the lowercased page text. -/
def loginSuccessIndicator (finalUrl pageText : String) : Bool :=
  let lowerText := jsToLower pageText
  (!jsIncludes finalUrl "/login") ||
  jsIncludes finalUrl "dashboard" ||
  jsIncludes finalUrl "available" ||
  jsIncludes finalUrl "jobs" ||
  jsIncludes finalUrl "home" ||
  jsIncludes finalUrl "portal" ||
  jsIncludes lowerText "welcome" ||
  jsIncludes lowerText "dashboard" ||
  jsIncludes lowerText "available jobs" ||
  jsIncludes lowerText "logout" ||
  jsIncludes lowerText "sign out" ||
  jsIncludes lowerText "my account" ||
  (decide (500 < pageText.length) && !jsIncludes lowerText "password")

/-- The post-submission classification of `loginToRelyHome`: explicit error
phrases first, then the lenient success disjunction, then the strict
still-on-login-page failure, defaulting to "appears successful". -/
def loginToRelyHomeOutcome (finalUrl pageText : String) (passwordStillVisible : Bool) :
    LoginOutcome :=
  let lowerText := jsToLower pageText
  if loginErrorMessages.any (fun m => jsIncludes lowerText m) then
    .invalidCredentials
  else if loginSuccessIndicator finalUrl pageText then
    .succeeded
  else if jsIncludes finalUrl "/login" && passwordStillVisible then
    .stillOnLoginPage
  else
    .succeeded

/-! ## The `processJob` accept pipeline (`src/server.js:192-407`)

The browser-effect outcomes of each step are supplied by a `JobEnv` record:
each field is the result of the corresponding `await`ed call, `.error`
modelling a thrown exception.  `processJobModel` mirrors the `try / catch /
finally` structure of `processJob` and returns the list of payloads handed
to `sendCallback`, in order.  The trailing `finally { await browser.close() }`
cannot invoke the callback and is therefore irrelevant to the callback
trace. -/

/-- Step outcomes of one `processJob` run. -/
structure JobEnv where
  preferredDays : List String
  preferredSlots : List String
  /-- `puppeteer.launch` + `newPage` + `setViewport`. -/
  launch : Except String Unit
  /-- `page.goto(accept_url)`. -/
  gotoAccept : Except String Unit
  /-- The slot-scanning `page.evaluate`. -/
  discoverSlots : Except String (List Slot)
  /-- `page.click(radioSelector)`. -/
  clickRadio : Except String Unit
  /-- The submit-clicking `page.evaluate` (returns whether a control was clicked). -/
  submitEval : Except String Bool
  /-- `page.screenshot` on the success path. -/
  screenshot : Except String String
  /-- `page.content` + body-text `page.evaluate`. -/
  pageText : Except String String
  /-- The best-effort screenshot inside the catch block. -/
  errorScreenshot : Except String String
  /-- The `fetch` inside `sendCallback`. -/
  callbackTransport : Except String Unit

/-- The payload object handed to `sendCallback`. -/
structure CallbackData where
  success : Bool
  selected_slot : Option String
  selected_date : Option String
  selected_day : Option String
  confirmation_message : Option String
  screenshot_base64 : Option String
  available_slots : List String
  error : Option String
  deriving DecidableEq, Repr

/-- Function `sendCallback(callbackUrl, data)`: one `fetch` attempt whose failure is
caught and logged inside the function, so the caller observes exactly the
single invocation either way and no exception. -/
def sendCallbackModel (transport : Except String Unit) (data : CallbackData) :
    List CallbackData :=
  match transport with
  | .ok _ => [data]
  | .error _ => [data]

/-- The catch block of `processJob`: if a browser exists, attempt a
best-effort screenshot (its own failure is swallowed, keeping any previously
captured value), then send the failure callback. -/
def processJobOnError (env : JobEnv) (browserLaunched : Bool) (e : String)
    (slotsSoFar : List Slot) (priorShot : Option String) : List CallbackData :=
  let shot :=
    if browserLaunched then
      match env.errorScreenshot with
      | .ok s => some s
      | .error _ => priorShot
    else priorShot
  sendCallbackModel env.callbackTransport
    { success := false
      selected_slot := none
      selected_date := none
      selected_day := none
      confirmation_message := none
      screenshot_base64 := shot
      available_slots := slotsSoFar.map (fun s => s.label)
      error := some e }

/-- Function `processJob`, step by step; returns the ordered trace of `sendCallback`
payloads.  The `| none => ...` branch after `findBestSlot` mirrors the
`TypeError` JS would raise on `bestSlot.id` when the scored list were empty;
it is unreachable because the empty-slots check throws first. -/
def processJobModel (env : JobEnv) : List CallbackData :=
  match env.launch with
  | .error e => processJobOnError env false e [] none
  | .ok _ =>
  match env.gotoAccept with
  | .error e => processJobOnError env true e [] none
  | .ok _ =>
  match env.discoverSlots with
  | .error e => processJobOnError env true e [] none
  | .ok slots =>
  if slots.isEmpty then
    processJobOnError env true "No time slots found on page" slots none
  else
  match findBestSlot slots env.preferredDays env.preferredSlots with
  | none =>
    processJobOnError env true "Cannot read properties of undefined" slots none
  | some bestSlot =>
  match env.clickRadio with
  | .error e => processJobOnError env true e slots none
  | .ok _ =>
  match env.submitEval with
  | .error e => processJobOnError env true e slots none
  | .ok submitClicked =>
  if !submitClicked then
    processJobOnError env true "Could not find submit button" slots none
  else
  match env.screenshot with
  | .error e => processJobOnError env true e slots none
  | .ok shot =>
  match env.pageText with
  | .error e => processJobOnError env true e slots (some shot)
  | .ok text =>
    let lower := jsToLower text
    let isConfirmed :=
      ["confirmed", "accepted", "scheduled", "success", "thank you"].any
        (fun w => jsIncludes lower w)
    let parsed := parseSlotLabel bestSlot.label
    sendCallbackModel env.callbackTransport
      { success := true
        selected_slot := some (match parsed.timeRange with
          | some tr => tr
          | none => bestSlot.value)
        selected_date := parsed.date
        selected_day := parsed.day
        confirmation_message := some (if isConfirmed then "Job accepted successfully"
          else "Submitted but confirmation unclear")
        screenshot_base64 := some shot
        available_slots := slots.map (fun s => s.label)
        error := none }

/-! ## Helper lemmas about the stable descending sort -/

theorem mem_insertByScoreDesc {z x : Slot × Int} {l : List (Slot × Int)} :
    z ∈ insertByScoreDesc x l ↔ z = x ∨ z ∈ l := by
  induction l with
  | nil => simp [insertByScoreDesc]
  | cons y ys ih =>
    simp only [insertByScoreDesc]
    split
    · simp [List.mem_cons]
    · simp [List.mem_cons, ih]
      tauto

theorem mem_sortByScoreDesc {z : Slot × Int} {l : List (Slot × Int)} :
    z ∈ sortByScoreDesc l ↔ z ∈ l := by
  induction l with
  | nil => simp [sortByScoreDesc]
  | cons x xs ih =>
    simp [sortByScoreDesc, mem_insertByScoreDesc, ih, List.mem_cons]

theorem length_insertByScoreDesc (x : Slot × Int) (l : List (Slot × Int)) :
    (insertByScoreDesc x l).length = l.length + 1 := by
  induction l with
  | nil => rfl
  | cons y ys ih =>
    simp only [insertByScoreDesc]
    split
    · rfl
    · simp [ih]

theorem length_sortByScoreDesc (l : List (Slot × Int)) :
    (sortByScoreDesc l).length = l.length := by
  induction l with
  | nil => rfl
  | cons x xs ih => simp [sortByScoreDesc, length_insertByScoreDesc, ih]

theorem sortByScoreDesc_pair (x y : Slot × Int) :
    sortByScoreDesc [x, y] = if y.2 ≤ x.2 then [x, y] else [y, x] := by
  simp only [sortByScoreDesc, insertByScoreDesc]

theorem findBestSlot_pair (a b : Slot) (days times : List String) :
    findBestSlot [a, b] days times =
      if scoreSlot b (days.map jsToLower) (times.map jsToLower) ≤
         scoreSlot a (days.map jsToLower) (times.map jsToLower)
      then some a else some b := by
  unfold findBestSlot
  simp only [List.map_cons, List.map_nil, sortByScoreDesc_pair]
  split <;> rfl

/-! ## Claim theorems -/

/-- Claim C1: for every non-empty slot list `S` and any preference lists,
`findBestSlot` returns `some` element of `S` (value, label, id and name are
those of a discovered slot), and the result is deterministic: equal inputs
give equal outputs. -/
theorem claim_C1_findBestSlot_total (S : List Slot) (days times : List String)
    (h : S ≠ []) :
    (∃ s ∈ S, findBestSlot S days times = some s) ∧
    (∀ S₂ days₂ times₂, S = S₂ → days = days₂ → times = times₂ →
      findBestSlot S days times = findBestSlot S₂ days₂ times₂) := by
  constructor
  · have key : ∀ (scored : List (Slot × Int)),
        scored = S.map (fun s => (s, scoreSlot s (days.map jsToLower) (times.map jsToLower))) →
        ∃ s ∈ S, (sortByScoreDesc scored).head?.map Prod.fst = some s := by
      intro scored hscored
      cases hsort : sortByScoreDesc scored with
      | nil =>
        exfalso
        have hlen := length_sortByScoreDesc scored
        rw [hsort] at hlen
        rw [hscored] at hlen
        simp at hlen
        exact h (List.length_eq_zero.mp hlen.symm)
      | cons z zs =>
        have hzmem : z ∈ scored :=
          mem_sortByScoreDesc.mp (hsort ▸ List.mem_cons_self z zs)
        rw [hscored] at hzmem
        obtain ⟨s, hsS, hseq⟩ := List.mem_map.mp hzmem
        refine ⟨s, hsS, ?_⟩
        simp [← hseq]
    have := key _ rfl
    simpa [findBestSlot] using this
  · intro S₂ days₂ times₂ h1 h2 h3
    rw [h1, h2, h3]

/-- Claim C1 witness: a concrete one-slot instance. -/
theorem claim_C1_witness :
    (∃ s ∈ [Slot.mk "v1" "Monday 9:00am-11:00am" "i1" "appttime"],
      findBestSlot [Slot.mk "v1" "Monday 9:00am-11:00am" "i1" "appttime"] [] [] = some s) ∧
    (∀ S₂ days₂ times₂, [Slot.mk "v1" "Monday 9:00am-11:00am" "i1" "appttime"] = S₂ →
      ([] : List String) = days₂ → ([] : List String) = times₂ →
      findBestSlot [Slot.mk "v1" "Monday 9:00am-11:00am" "i1" "appttime"] [] []
        = findBestSlot S₂ days₂ times₂) :=
  claim_C1_findBestSlot_total [Slot.mk "v1" "Monday 9:00am-11:00am" "i1" "appttime"] [] []
    (by simp)

/-- Claim C2: every run of the `processJob` pipeline — over all combinations
of step outcomes, including thrown errors in any step, screenshot failures,
and a failing callback transport — invokes `sendCallback` exactly once. -/
theorem claim_C2_exactly_one_callback (env : JobEnv) :
    (processJobModel env).length = 1 := by
  have hcb : ∀ d, (sendCallbackModel env.callbackTransport d).length = 1 := by
    intro d
    unfold sendCallbackModel
    cases env.callbackTransport <;> rfl
  have herr : ∀ bl e sl sh, (processJobOnError env bl e sl sh).length = 1 := by
    intro bl e sl sh
    unfold processJobOnError
    exact hcb _
  unfold processJobModel
  repeat first
  | exact herr _ _ _ _
  | exact hcb _
  | split

/-- Claim C3: the day bonus of `findBestSlot` is exactly one `+100`, never
more (the day-score component is always 0 or 100); hence a slot with a day
match scores exactly 100 above an otherwise-identical slot (same time-score)
without one. -/
theorem claim_C3_day_bonus (days times : List String) (a b : Slot)
    (ha : dayMatches (jsToLower a.label) (days.map jsToLower) = true)
    (hb : dayMatches (jsToLower b.label) (days.map jsToLower) = false)
    (ht : timeScore (jsToLower a.label) (times.map jsToLower)
        = timeScore (jsToLower b.label) (times.map jsToLower)) :
    (∀ lab nd, dayScore lab nd = 0 ∨ dayScore lab nd = 100) ∧
    scoreSlot a (days.map jsToLower) (times.map jsToLower)
      = scoreSlot b (days.map jsToLower) (times.map jsToLower) + 100 := by
  constructor
  · intro lab nd
    unfold dayScore
    split
    · right; rfl
    · left; rfl
  · unfold scoreSlot dayScore
    rw [ha, hb, ht]
    simp
    omega

/-- Claim C3 witness: Monday slot vs Tuesday slot, preference `["mon"]`,
identical time-range labels. -/
theorem claim_C3_witness :
    scoreSlot (Slot.mk "v1" "Monday 9:00am-11:00am" "i1" "appttime")
        (["mon"].map jsToLower) (["9:00am"].map jsToLower)
      = scoreSlot (Slot.mk "v2" "Tuesday 9:00am-11:00am" "i2" "appttime")
        (["mon"].map jsToLower) (["9:00am"].map jsToLower) + 100 :=
  (claim_C3_day_bonus ["mon"] ["9:00am"]
    (Slot.mk "v1" "Monday 9:00am-11:00am" "i1" "appttime")
    (Slot.mk "v2" "Tuesday 9:00am-11:00am" "i2" "appttime")
    (by decide) (by decide) (by decide)).2

/-- Claim C4: with time preferences `[t0, t1]`, a slot matching `t0` at
index 0 scores exactly 5 above a slot matching only `t1` at index 1 (no day
matches anywhere), and `findBestSlot` selects the `t0`-matching slot
whichever order the two slots are discovered in. -/
theorem claim_C4_preference_order (days : List String) (t0 t1 : String) (a b : Slot)
    (hda : dayMatches (jsToLower a.label) (days.map jsToLower) = false)
    (hdb : dayMatches (jsToLower b.label) (days.map jsToLower) = false)
    (ha0 : jsIncludes (jsToLower a.label) (jsToLower t0) = true)
    (_ha1i : jsIncludes (jsToLower a.label) (jsToLower t1) = false)
    (_ha1t : timeRangeMatches (jsToLower a.label) (jsToLower t1) = false)
    (hb0i : jsIncludes (jsToLower b.label) (jsToLower t0) = false)
    (hb0t : timeRangeMatches (jsToLower b.label) (jsToLower t0) = false)
    (hb1 : jsIncludes (jsToLower b.label) (jsToLower t1) = true) :
    scoreSlot a (days.map jsToLower) ([t0, t1].map jsToLower)
      = scoreSlot b (days.map jsToLower) ([t0, t1].map jsToLower) + 5 ∧
    findBestSlot [a, b] days [t0, t1] = some a ∧
    findBestSlot [b, a] days [t0, t1] = some a := by
  have hsa : scoreSlot a (days.map jsToLower) ([t0, t1].map jsToLower) = 50 := by
    simp [scoreSlot, dayScore, hda, timeScore, slotTimeIdx, ha0]
  have hsb : scoreSlot b (days.map jsToLower) ([t0, t1].map jsToLower) = 45 := by
    simp [scoreSlot, dayScore, hdb, timeScore, slotTimeIdx, hb0i, hb0t, hb1]
  refine ⟨by rw [hsa, hsb]; norm_num, ?_, ?_⟩
  · rw [findBestSlot_pair, hsa, hsb]
    norm_num
  · rw [findBestSlot_pair, hsa, hsb]
    norm_num

/-- Claim C4 witness: `t0 = "9:00am"`, `t1 = "1:00pm"`, two slots whose
labels contain exactly their own token, no day match. -/
theorem claim_C4_witness :
    findBestSlot
      [Slot.mk "v1" "morning 9:00am - 11:00am" "i1" "appttime",
       Slot.mk "v2" "afternoon 1:00pm - 3:00pm" "i2" "appttime"]
      ["fri"] ["9:00am", "1:00pm"]
      = some (Slot.mk "v1" "morning 9:00am - 11:00am" "i1" "appttime") :=
  (claim_C4_preference_order ["fri"] "9:00am" "1:00pm"
    (Slot.mk "v1" "morning 9:00am - 11:00am" "i1" "appttime")
    (Slot.mk "v2" "afternoon 1:00pm - 3:00pm" "i2" "appttime")
    (by decide) (by decide) (by decide) (by decide) (by decide)
    (by decide) (by decide) (by decide)).2.1

/-- The 73-character example page text of claim C5. -/
def sparseJobsText : String :=
  "Welcome back, here are your 12 available jobs today across all regions..."

/-- Claim C5 counterexample: the claim asserts the session-expiry detector
returns `false` on this long trigger-free text, but the `src/server.js`
detector returns `true`: the text has only 73 characters, below that
variant's 100-character short-text threshold. -/
theorem claim_C5_counterexample :
    looksLikeRelyhomeSessionExpired sparseJobsText = true ∧
    (jsToLower sparseJobsText).length = 73 := by
  constructor <;> decide

/-- Claim C5 (amended): the detector returns `true` on `""` and `"hi"`
(short-text rule, both variants); on the 73-character example text the
40-character-threshold variant (`part_001`/`part_002`/`part_003`) returns
`false` as the text contains no trigger phrase, while the `src/server.js`
variant returns `true` because 73 is below its 100-character threshold. -/
theorem claim_C5_amended :
    looksLikeRelyhomeSessionExpired "" = true ∧
    looksLikeRelyhomeSessionExpired "hi" = true ∧
    looksLikeRelyhomeSessionExpiredV2 "" = true ∧
    looksLikeRelyhomeSessionExpiredV2 "hi" = true ∧
    looksLikeRelyhomeSessionExpiredV2 sparseJobsText = false ∧
    looksLikeRelyhomeSessionExpired sparseJobsText = true := by
  refine ⟨?_, ?_, ?_, ?_, ?_, ?_⟩ <;> decide

/-- Claim C6: after a successful save of a non-empty cookie list at `saveT`,
the cache is fresh at every `t` with `t - saveT < TTL` and stale at every
`t` with `t - saveT ≥ TTL`; and a `null` or empty cookie cache is never
fresh. -/
theorem claim_C6_cache_roundtrip (s : CacheState) (cs : List Cookie) (saveT t : Int)
    (hcs : cs ≠ []) :
    (t - saveT < RELYHOME_COOKIE_TTL_MS →
      hasFreshCookieCache (saveRelyhomeCookieCache s (.ok cs) saveT) t = true) ∧
    (RELYHOME_COOKIE_TTL_MS ≤ t - saveT →
      hasFreshCookieCache (saveRelyhomeCookieCache s (.ok cs) saveT) t = false) ∧
    (∀ s2 : CacheState, (s2.cookies = none ∨ s2.cookies = some []) →
      hasFreshCookieCache s2 t = false) := by
  have hlen : 0 < cs.length := List.length_pos.mpr hcs
  have hsave : saveRelyhomeCookieCache s (.ok cs) saveT =
      { cookies := some cs, updatedAt := saveT } := by
    simp [saveRelyhomeCookieCache, hlen]
  refine ⟨?_, ?_, ?_⟩
  · intro ht
    rw [hsave]
    simp [hasFreshCookieCache, hlen, ht]
  · intro ht
    rw [hsave]
    simp [hasFreshCookieCache, hlen]
    omega
  · rintro s2 (h2 | h2) <;> simp [hasFreshCookieCache, h2]

/-- Claim C6 witness: save one cookie at time 1000; fresh at 2000, stale at
80000000 (79999000 ms ≥ 72000000 ms TTL), and the empty cache is stale. -/
theorem claim_C6_witness :
    hasFreshCookieCache
      (saveRelyhomeCookieCache { cookies := none, updatedAt := 0 }
        (.ok [Cookie.mk "sid" "abc"]) 1000) 2000 = true ∧
    hasFreshCookieCache
      (saveRelyhomeCookieCache { cookies := none, updatedAt := 0 }
        (.ok [Cookie.mk "sid" "abc"]) 1000) 80000000 = false ∧
    hasFreshCookieCache { cookies := none, updatedAt := 0 } 2000 = false :=
  ⟨(claim_C6_cache_roundtrip { cookies := none, updatedAt := 0 } [Cookie.mk "sid" "abc"]
      1000 2000 (by simp)).1 (by decide),
   (claim_C6_cache_roundtrip { cookies := none, updatedAt := 0 } [Cookie.mk "sid" "abc"]
      1000 80000000 (by simp)).2.1 (by decide),
   (claim_C6_cache_roundtrip { cookies := none, updatedAt := 0 } [Cookie.mk "sid" "abc"]
      1000 2000 (by simp)).2.2 { cookies := none, updatedAt := 0 } (Or.inl rfl)⟩

/-- Claim C7: when the cache is fresh and applying the cookies throws,
`applyRelyhomeCookieCache` clears the cache to exactly `null` / timestamp 0
(never a partial state), so `hasFreshCookieCache` is false at every later
instant; the exception is swallowed (the function is total on states). -/
theorem claim_C7_apply_clears (s : CacheState) (now t : Int)
    (h : hasFreshCookieCache s now = true) :
    applyRelyhomeCookieCache s now true = { cookies := none, updatedAt := 0 } ∧
    hasFreshCookieCache (applyRelyhomeCookieCache s now true) t = false := by
  have hclear : applyRelyhomeCookieCache s now true =
      { cookies := none, updatedAt := 0 } := by
    simp [applyRelyhomeCookieCache, h]
  exact ⟨hclear, by rw [hclear]; rfl⟩

/-- Claim C7 witness: a concrete fresh cache whose apply throws. -/
theorem claim_C7_witness :
    applyRelyhomeCookieCache { cookies := some [Cookie.mk "sid" "abc"], updatedAt := 0 } 1 true
      = { cookies := none, updatedAt := 0 } ∧
    hasFreshCookieCache
      (applyRelyhomeCookieCache { cookies := some [Cookie.mk "sid" "abc"], updatedAt := 0 } 1 true)
      2 = false :=
  claim_C7_apply_clears { cookies := some [Cookie.mk "sid" "abc"], updatedAt := 0 } 1 2
    (by decide)

/-- Claim C8: the explicit-error check of the login state machine has
priority over every success signal: whenever the lowercased page text
contains one of the explicit error phrases, the outcome is
`Failed(InvalidCredentials)` regardless of URL, page length, or the
presence of success indicators. -/
theorem claim_C8_error_priority (finalUrl pageText : String) (passwordStillVisible : Bool)
    (h : loginErrorMessages.any (fun m => jsIncludes (jsToLower pageText) m) = true) :
    loginToRelyHomeOutcome finalUrl pageText passwordStillVisible
      = LoginOutcome.invalidCredentials := by
  simp [loginToRelyHomeOutcome, h]

/-- Claim C8 witness: text containing both an explicit error phrase and
several success indicators, URL off the login page. -/
theorem claim_C8_witness :
    loginErrorMessages.any
      (fun m => jsIncludes (jsToLower "Welcome to your dashboard. Logout here. Invalid password entered.") m) = true ∧
    loginSuccessIndicator "https://relyhome.com/dashboard"
      "Welcome to your dashboard. Logout here. Invalid password entered." = true ∧
    loginToRelyHomeOutcome "https://relyhome.com/dashboard"
      "Welcome to your dashboard. Logout here. Invalid password entered." false
      = LoginOutcome.invalidCredentials :=
  ⟨by decide, by decide,
   claim_C8_error_priority "https://relyhome.com/dashboard"
     "Welcome to your dashboard. Logout here. Invalid password entered." false (by decide)⟩

/-- Claim C9 counterexample: the claim asserts a non-null day for
`"Wed 02/14/2024 9:00am - 11:00am"`, but the weekday regex of
`parseSlotLabel` matches only full weekday names, and the label carries only
the abbreviation `Wed`, so the parsed day is `null`. -/
theorem claim_C9_counterexample :
    (parseSlotLabel "Wed 02/14/2024 9:00am - 11:00am").day = none := by
  decide

/-- Claim C9 (amended): `parseSlotLabel("Wed 02/14/2024 9:00am - 11:00am")`
returns date `"02/14/2024"` and timeRange `"9:00am - 11:00am"` as claimed,
but day `null`, because the weekday regex recognises only full weekday
names and the label contains only the abbreviation. -/
theorem claim_C9_amended :
    parseSlotLabel "Wed 02/14/2024 9:00am - 11:00am"
      = { date := some "02/14/2024", day := none, timeRange := some "9:00am - 11:00am" } := by
  decide

/-- Claim C10: the time bonus is exactly `50 - 5·i` for a first match at
0-indexed position `i` — zero at `i = 10` and strictly negative for
`i ≥ 11`; a slot (no day match) whose only time match sits at index
`i ≥ 11` therefore gets a strictly negative score and loses to an
otherwise-equal slot matching no preference at all, whichever order the two
are discovered in. -/
theorem claim_C10_negative_bonus :
    (∀ (lab : String) (ns : List String) (i : Nat), slotTimeIdx lab ns = some i →
      timeScore lab ns = 50 - 5 * (i : Int) ∧
      (i = 10 → timeScore lab ns = 0) ∧
      (11 ≤ i → timeScore lab ns < 0)) ∧
    (∀ (days prefs : List String) (a b : Slot) (i : Nat),
      dayMatches (jsToLower a.label) (days.map jsToLower) = false →
      dayMatches (jsToLower b.label) (days.map jsToLower) = false →
      slotTimeIdx (jsToLower a.label) (prefs.map jsToLower) = some i →
      11 ≤ i →
      slotTimeIdx (jsToLower b.label) (prefs.map jsToLower) = none →
      scoreSlot a (days.map jsToLower) (prefs.map jsToLower) < 0 ∧
      findBestSlot [a, b] days prefs = some b ∧
      findBestSlot [b, a] days prefs = some b) := by
  have hts : ∀ (lab : String) (ns : List String) (i : Nat), slotTimeIdx lab ns = some i →
      timeScore lab ns = 50 - 5 * (i : Int) := by
    intro lab ns i hi
    unfold timeScore
    rw [hi]
  constructor
  · intro lab ns i hi
    refine ⟨hts lab ns i hi, ?_, ?_⟩
    · intro h10
      rw [hts lab ns i hi, h10]
      norm_num
    · intro h11
      rw [hts lab ns i hi]
      omega
  · intro days prefs a b i hda hdb hia h11 hib
    have hsa : scoreSlot a (days.map jsToLower) (prefs.map jsToLower) = 50 - 5 * (i : Int) := by
      unfold scoreSlot dayScore
      rw [hda, hts _ _ _ hia]
      simp
    have hsb : scoreSlot b (days.map jsToLower) (prefs.map jsToLower) = 0 := by
      unfold scoreSlot dayScore timeScore
      rw [hdb, hib]
      simp
    have hneg : scoreSlot a (days.map jsToLower) (prefs.map jsToLower) < 0 := by
      rw [hsa]; omega
    refine ⟨hneg, ?_, ?_⟩
    · rw [findBestSlot_pair, hsb]
      rw [if_neg (by omega)]
    · rw [findBestSlot_pair, hsa, hsb]
      rw [if_pos (by omega)]

/-- Claim C10 witness: a 12-entry preference list whose only match for the
first slot is at index 11 (bonus `-5`); the no-match slot wins. -/
theorem claim_C10_witness :
    findBestSlot
      [Slot.mk "v1" "evening 5:00pm - 7:00pm" "i1" "appttime",
       Slot.mk "v2" "no preference match here" "i2" "appttime"]
      ["fri"] ["t0", "t1", "t2", "t3", "t4", "t5", "t6", "t7", "t8", "t9", "t10", "5:00pm"]
      = some (Slot.mk "v2" "no preference match here" "i2" "appttime") :=
  (claim_C10_negative_bonus.2 ["fri"]
    ["t0", "t1", "t2", "t3", "t4", "t5", "t6", "t7", "t8", "t9", "t10", "5:00pm"]
    (Slot.mk "v1" "evening 5:00pm - 7:00pm" "i1" "appttime")
    (Slot.mk "v2" "no preference match here" "i2" "appttime") 11
    (by decide) (by decide) (by decide) (by decide) (by decide)).2.1

end RelyhomeWorker

